import Mathlib

/-!
Verification of the flowchart traversal engine of `tracking-software`.

The embedding below follows `src/backend/ai/assistant/flowchart.py`
(`FlowchartLLMFramework`): nodes are entries of an ordered dictionary,
`run` walks the graph one node at a time, calling the language-model
collaborator for decision, schema and text completions.  Python dicts are
modelled as ordered association lists, the language model as a record of
pure functions, and the unbounded `while True:` loop as a fuel-indexed
iteration whose `outOfFuel` outcome witnesses a non-terminating run.

A second, clearly separated model (`SpecModel` namespace further down)
covers the loop-capable engine `flowchart_framework.py`, which is imported
by `week_analyser.py` and `activity_extractor.py` but whose file is not
part of the sources; that model is built from the specification text.
-/

namespace Flowchart

/-- A structured value returned by the model in schema mode: the pydantic
class name (`data.__class__.__name__`) and the `.dict()` fields, in
declaration order, with values already rendered to strings. -/
structure StructuredValue where
  className : String
  fields : List (String × String)
deriving DecidableEq

/-- One node of the flowchart dictionary, as read by the engine:
`text`, an ordered `connections` mapping (label to target id, empty or
absent meaning terminal), an optional structured-output schema
(identified here by its name and declared field list), and an optional
`temperature` (the engine defaults it to 7/10). -/
structure SchemaDesc where
  name : String
  fieldNames : List String
deriving DecidableEq

structure Node where
  text : String
  connections : List (String × String) := []
  schema : Option SchemaDesc := none
  temperature : Option ℚ := none
deriving DecidableEq

/-- A flowchart is an ordered mapping from node id to node,
mirroring the Python dict literal. -/
abbrev FlowDef := List (String × Node)

/-- Ordered-dict assignment `d[k] = v`: replace in place if the key is
present, otherwise append at the end (Python dict insertion order). -/
def upsert (k : String) (v : α) : List (String × α) → List (String × α)
  | [] => [(k, v)]
  | (k2, v2) :: rest =>
    if k2 == k then (k, v) :: rest else (k2, v2) :: upsert k v rest

/-- Does `nodeId` occur among the connection targets of some node?
(`any(node_id in n.get("connections", {}).values() ...)`). -/
def isTargetOf (nodeId : String) (fc : FlowDef) : Bool :=
  fc.any (fun p => (p.2.connections.map Prod.snd).contains nodeId)

/-- All node ids that are never a connection target, in declaration order. -/
def nonTargetIds (fc : FlowDef) : List String :=
  (fc.filter (fun p => ¬ isTargetOf p.1 fc)).map Prod.fst

/-- Start-node resolution of `FlowchartLLMFramework.__init__`:
`next(node_id for node_id, node in flowchart.items() if not any(...))`.
`next` without a default yields the FIRST qualifying id and raises
`StopIteration` (modelled by `none`) when no id qualifies. -/
def findStartNode (fc : FlowDef) : Option String :=
  (fc.find? (fun p => ¬ isTargetOf p.1 fc)).map Prod.fst

/-- The engine object: constructor-initialised fields of
`FlowchartLLMFramework`.  `extracted`, `visitedNodes`, `decisions` and
`reasoning` are the instance attributes mutated by `run`. -/
structure Framework where
  flowchart : FlowDef
  systemPrompt : String
  startNode : String
  extracted : List (String × StructuredValue) := []
  visitedNodes : List String := []
  decisions : List (String × String) := []
  reasoning : List (String × String) := []
deriving DecidableEq

/-- Constructing the framework: start-node resolution is the only graph
inspection performed; every other attribute starts empty. -/
def mkFramework (fc : FlowDef) (sys : String) : Option Framework :=
  (findStartNode fc).map (fun s =>
    { flowchart := fc, systemPrompt := sys, startNode := s })

/-- Rendering of a Python dict `{k: v, ...}` as pasted into the prompt. -/
def reprFields (fs : List (String × String)) : String :=
  "\x7b" ++ String.intercalate ", " (fs.map (fun p => p.1 ++ ": " ++ p.2)) ++ "\x7d"

/-- One context line appended per previously extracted value:
`f"\n\nContext: {model_name}: {data_dict}"`.  Note the literal word
`Context` — the node id `prev_node` is iterated but never interpolated. -/
def contextLine (v : StructuredValue) : String :=
  "\n\nContext: " ++ v.className ++ ": " ++ reprFields v.fields

/-- The prompt built at the top of each visit: the node text followed by
one context line per entry of `self.extracted`, in insertion order. -/
def buildNodePrompt (text : String) (ext : List (String × StructuredValue)) : String :=
  ext.foldl (fun acc p => acc ++ contextLine p.2) text

/-- `llm_function`'s full prompt:
`f"<focus>'{node_text}'</focus>\n Context\n{context['initial_input']}\n"`. -/
def fullPrompt (nodeText initialInput : String) : String :=
  "<focus>\x27" ++ nodeText ++ "\x27</focus>\n Context\n" ++ initialInput ++ "\n"

/-- `node.get("temperature", 0.7)`. -/
def nodeTemperature (n : Node) : ℚ :=
  n.temperature.getD (7 / 10)

/-- One `node_entry` of the traversal audit list.  The Python code stores
`None` for absent aspects (and, for the end node, drops the `None` keys of
the dict representation); both are modelled by `Option` fields left `none`. -/
structure TraceEntry where
  node : String
  text : String
  options : List String
  reasoning : Option String := none
  decision : Option String := none
  next_node : Option String := none
  extracted : Option (List (String × String)) := none
deriving DecidableEq

/-- A result coming back from `llm_function`. -/
inductive LLMResult where
  | text (s : String)
  | structured (v : StructuredValue)
deriving DecidableEq

/-- The language-model collaborator (`ask_text` / `ask_schema`), one pure
function per invocation mode.  `askDecision` returns the chosen label and
the reasoning of the `DecisionSchema` completion. -/
structure Collaborator where
  askText : String → String → ℚ → String
  askDecision : String → String → List String → String × String
  askStructured : String → String → SchemaDesc → StructuredValue

/-- A failure during traversal: `self.flowchart[current_node_id]` on an
undeclared id raises `KeyError`.  (No `ConfigurationError` or
`LanguageModelError` class exists anywhere in the sources.) -/
inductive RunErr where
  | keyError (id : String)
deriving DecidableEq

/-- The run-local state: the engine object, the current node id and the
`traversal` audit list. -/
structure RunState where
  fw : Framework
  current : String
  traversal : List TraceEntry
deriving DecidableEq

inductive StepResult where
  | next (s : RunState)
  | finished (result : LLMResult) (fw : Framework) (traversal : List TraceEntry)
  | error (e : RunErr)
deriving DecidableEq

/-- One iteration of the `while True:` body of `FlowchartLLMFramework.run`:
append the current id to `visited_nodes`, build the prompt from
`self.extracted`, then dispatch — terminal (no connections, model call in
schema or text mode, return), decision (more than one connection, decision
call, lenient label lookup with first-target fallback), or transition
(single connection; schema call and extraction only when a schema is
declared). -/
def step (c : Collaborator) (input : String) (s : RunState) : StepResult :=
  match s.fw.flowchart.lookup s.current with
  | none => StepResult.error (RunErr.keyError s.current)
  | some node =>
    let fw1 : Framework :=
      { s.fw with visitedNodes := s.fw.visitedNodes ++ [s.current] }
    let nodePrompt := buildNodePrompt node.text fw1.extracted
    match node.connections with
    | [] =>
      match node.schema with
      | some sch =>
        let v := c.askStructured (fullPrompt nodePrompt input) fw1.systemPrompt sch
        StepResult.finished (LLMResult.structured v) fw1
          (s.traversal ++ [{ node := s.current, text := node.text, options := [] }])
      | none =>
        let t := c.askText (fullPrompt nodePrompt input) fw1.systemPrompt (nodeTemperature node)
        StepResult.finished (LLMResult.text t) fw1
          (s.traversal ++ [{ node := s.current, text := node.text, options := [] }])
    | [(_, t0)] =>
      match node.schema with
      | some sch =>
        let v := c.askStructured (fullPrompt nodePrompt input) fw1.systemPrompt sch
        let fw2 : Framework := { fw1 with extracted := upsert s.current v fw1.extracted }
        StepResult.next
          { fw := fw2, current := t0,
            traversal := s.traversal ++
              [{ node := s.current, text := node.text,
                 options := node.connections.map Prod.fst,
                 next_node := some t0, extracted := some v.fields }] }
      | none =>
        StepResult.next
          { fw := fw1, current := t0,
            traversal := s.traversal ++
              [{ node := s.current, text := node.text,
                 options := node.connections.map Prod.fst,
                 next_node := some t0 }] }
    | (_, t0) :: _ :: _ =>
      let options := node.connections.map Prod.fst
      let dr := c.askDecision (fullPrompt nodePrompt input) fw1.systemPrompt options
      let fw2 : Framework :=
        { fw1 with decisions := upsert s.current dr.1 fw1.decisions,
                   reasoning := upsert s.current dr.2 fw1.reasoning }
      let nextNode := (node.connections.lookup dr.1).getD t0
      StepResult.next
        { fw := fw2, current := nextNode,
          traversal := s.traversal ++
            [{ node := s.current, text := node.text, options := options,
               reasoning := some dr.2, decision := some dr.1,
               next_node := some nextNode }] }

/-- Prologue of `run`: reset `self.visited_nodes` and `self.decisions`
(but neither `self.extracted` nor `self.reasoning`), start at
`self.start_node` with an empty traversal list. -/
def initRun (fw : Framework) : RunState :=
  { fw := { fw with visitedNodes := [], decisions := [] },
    current := fw.startNode, traversal := [] }

inductive RunOutcome where
  | outOfFuel
  | finished (result : LLMResult) (fw : Framework) (traversal : List TraceEntry)
  | error (e : RunErr)
deriving DecidableEq

/-- Fuel-indexed iteration of `step`.  The Python loop is unbounded;
`outOfFuel` for every fuel value means the run never terminates. -/
def runLoop (c : Collaborator) (input : String) : Nat → RunState → RunOutcome
  | 0, _ => RunOutcome.outOfFuel
  | Nat.succ n, s =>
    match step c input s with
    | StepResult.next s2 => runLoop c input n s2
    | StepResult.finished r fw tr => RunOutcome.finished r fw tr
    | StepResult.error e => RunOutcome.error e

/-- `framework.run(input_string)` with the given fuel budget. -/
def run (c : Collaborator) (fw : Framework) (input : String) (fuel : Nat) : RunOutcome :=
  runLoop c input fuel (initRun fw)

/-- The pair `return result, self.extracted`. -/
def runReturn : RunOutcome → Option (LLMResult × List (String × StructuredValue))
  | RunOutcome.finished r fw _ => some (r, fw.extracted)
  | _ => none

/-- The `self.visited_nodes` list at the end of a completed run. -/
def visitedOf : RunOutcome → Option (List String)
  | RunOutcome.finished _ fw _ => some fw.visitedNodes
  | _ => none

/-- The engine object (with its mutated attributes) after a completed run. -/
def frameworkOf : RunOutcome → Option Framework
  | RunOutcome.finished _ fw _ => some fw
  | _ => none

/-- The node the engine advances to, when the step continues. -/
def stepCurrentOf : StepResult → Option String
  | StepResult.next s2 => some s2.current
  | _ => none

/-- The extracted map after a continuing step. -/
def stepExtractedOf : StepResult → Option (List (String × StructuredValue))
  | StepResult.next s2 => some s2.fw.extracted
  | _ => none

/-! Concrete test fixtures.  `fcABC` is the decision flowchart of the
specification's testable property ("A = Decision{Yes: B, No: C}"); the
stubbed collaborators are deterministic. -/

/-- Stub collaborator answering every decision with `Yes`. -/
def stubYes : Collaborator :=
  { askText := fun _ _ _ => "final",
    askDecision := fun _ _ _ => ("Yes", "why"),
    askStructured := fun _ _ sch =>
      { className := sch.name, fields := sch.fieldNames.map (fun f => (f, "v")) } }

/-- Stub collaborator answering every decision with the undeclared label
`Maybe`. -/
def stubMaybe : Collaborator :=
  { askText := fun _ _ _ => "final",
    askDecision := fun _ _ _ => ("Maybe", "why"),
    askStructured := fun _ _ sch =>
      { className := sch.name, fields := sch.fieldNames.map (fun f => (f, "v")) } }

def fcABC : FlowDef :=
  [("A", { text := "is it?", connections := [("Yes", "B"), ("No", "C")] }),
   ("B", { text := "btext" }),
   ("C", { text := "ctext" })]

def fwABC : Framework :=
  { flowchart := fcABC, systemPrompt := "sys", startNode := "A" }

/-- A single transition node followed by a terminal node. -/
def fcT : FlowDef :=
  [("P", { text := "p", connections := [("d", "E")] }),
   ("E", { text := "e" })]

def fwT : Framework :=
  { flowchart := fcT, systemPrompt := "sys", startNode := "P" }

/-- A cyclic flowchart: `S → A → B → A → B → ...`.  All three are
single-connection nodes without schema, so no model call is ever made and
the run can never reach a terminal node. -/
def fcCycle : FlowDef :=
  [("S", { text := "s", connections := [("default", "A")] }),
   ("A", { text := "a", connections := [("d", "B")] }),
   ("B", { text := "b", connections := [("d", "A")] })]

def fwCycle : Framework :=
  { flowchart := fcCycle, systemPrompt := "sys", startNode := "S" }

/-- `run` never terminates: every fuel budget is exhausted. -/
def neverTerminates (c : Collaborator) (fw : Framework) (input : String) : Prop :=
  ∀ fuel : Nat, run c fw input fuel = RunOutcome.outOfFuel

/-- Two isolated terminal nodes: both ids qualify as start nodes. -/
def fcTwo : FlowDef :=
  [("A", { text := "a" }), ("B", { text := "b" })]

/-- A connection pointing at the undeclared id `Ghost`. -/
def fcDangle : FlowDef :=
  [("A", { text := "a", connections := [("d", "Ghost")] })]

def fwDangle : Framework :=
  { flowchart := fcDangle, systemPrompt := "sys", startNode := "A" }

def schX : SchemaDesc := { name := "XSchema", fieldNames := ["f1", "f2"] }

/-- Node `M` declares both a schema and two connections. -/
def fcBoth : FlowDef :=
  [("S", { text := "s", connections := [("d", "M")] }),
   ("M", { text := "m", schema := some schX,
           connections := [("Yes", "X"), ("No", "Y")] }),
   ("X", { text := "x" }),
   ("Y", { text := "y" })]

def fwBoth : Framework :=
  { flowchart := fcBoth, systemPrompt := "sys", startNode := "S" }

/-- An extraction node followed by a terminal node (for the cross-run
state claims). -/
def schPlans : SchemaDesc :=
  { name := "AllPlanNamesSchema", fieldNames := ["plan_names"] }

def fc9 : FlowDef :=
  [("Ext", { text := "e", schema := some schPlans,
             connections := [("default", "End")] }),
   ("End", { text := "end" })]

def fw9 : Framework :=
  { flowchart := fc9, systemPrompt := "sys", startNode := "Ext" }

/-- The value `stubYes.askStructured` produces for `schPlans`. -/
def v9 : StructuredValue :=
  { className := "AllPlanNamesSchema", fields := [("plan_names", "v")] }

/-- A sample structured value for the context-line claims. -/
def svX : StructuredValue := { className := "S", fields := [("a", "b")] }

/-- Context line in the exact shape the specification describes —
`<nodeId>: <schemaName>: {field: value, …}` — to be compared against the
`contextLine` the code actually produces. -/
def specC6ContextLine (nodeId : String) (v : StructuredValue) : String :=
  "\n\n" ++ nodeId ++ ": " ++ v.className ++ ": " ++ reprFields v.fields

end Flowchart

namespace SpecModel

/-!
Modelled from the spec: the loop-capable engine `flowchart_framework.py` is
imported by `week_analyser.py` and `activity_extractor.py` but its file is
missing from the sources, so the definitions in this namespace follow the
specification text (§4.2 PromptBuilder and §4.3 TraversalEngine): node
kinds are explicit, `${name}` tokens are substituted from the innermost
matching loop binding, LoopStart/LoopContinue implement iteration over a
previously extracted sequence, and the context block uses the
`<nodeId>: <schemaName>: {…}` shape of §4.2.  Per-node temperature is
configuration data with no influence on routing and is left out.
-/

/-- A field of a structured extraction: either a scalar rendered to a
string or a sequence of strings (the shape a loop collection needs). -/
inductive FieldVal where
  | str (s : String)
  | seq (xs : List String)
deriving DecidableEq

/-- Modelled from the spec: a structured value with heterogeneous fields,
keyed by schema name. -/
structure SValue where
  schemaName : String
  fields : List (String × FieldVal)
deriving DecidableEq

/-- Modelled from the spec: explicit node kind (§9 design note); loop
nodes carry `iteratorName` and `collectionFieldName`. -/
inductive SNodeKind where
  | plain
  | loopStart (iteratorName : String) (collectionFieldName : String)
  | loopContinue
deriving DecidableEq

structure SNode where
  text : String := ""
  connections : List (String × String) := []
  schema : Option Flowchart.SchemaDesc := none
  kind : SNodeKind := SNodeKind.plain
deriving DecidableEq

abbrev SFlowDef := List (String × SNode)

/-- One scope of the loop stack: `{iteratorName, collection, index}`. -/
structure LoopScope where
  iteratorName : String
  collection : List String
  index : Nat
deriving DecidableEq

def lbrace : Char := Char.ofNat 123

def rbrace : Char := Char.ofNat 125

/-- The value an open scope currently binds: `collection[index]`. -/
def boundValue (sc : LoopScope) : String :=
  sc.collection.getD sc.index ""

/-- Loop bindings, innermost scope first (head of the stack). -/
def currentBindings (stack : List LoopScope) : List (String × String) :=
  stack.map (fun sc => (sc.iteratorName, boundValue sc))

/-- Scanner state for template rendering: plain text, just after a `$`,
or inside a `$\x7b...\x7d` token (the name read so far, reversed). -/
inductive ScanMode where
  | normal
  | dollar
  | inTok (acc : List Char)
deriving DecidableEq

/-- Modelled from the spec: scan the template character by character and
substitute each `$\x7bname\x7d` token with the innermost matching binding;
`none` models the `ConfigurationError` of an unresolved token (a name not
bound, or a token that never closes).  A `$` not followed by `\x7b` is
literal text. -/
def renderRec (b : List (String × String)) : ScanMode → List Char → Option (List Char)
  | ScanMode.normal, [] => some []
  | ScanMode.dollar, [] => some [ '$' ]
  | ScanMode.inTok _, [] => none
  | ScanMode.normal, c :: rest =>
    if c = '$' then renderRec b ScanMode.dollar rest
    else (renderRec b ScanMode.normal rest).map (fun t => c :: t)
  | ScanMode.dollar, c :: rest =>
    if c = lbrace then renderRec b (ScanMode.inTok []) rest
    else (renderRec b ScanMode.normal rest).map (fun t => '$' :: c :: t)
  | ScanMode.inTok acc, c :: rest =>
    if c = rbrace then
      match List.lookup (String.mk acc.reverse) b with
      | some v => (renderRec b ScanMode.normal rest).map (fun t => v.data ++ t)
      | none => none
    else renderRec b (ScanMode.inTok (c :: acc)) rest

/-- The names of the well-formed `$\x7bname\x7d` tokens of a template, in
order of appearance (same scan as `renderRec`). -/
def tokensRec : ScanMode → List Char → List String
  | _, [] => []
  | ScanMode.normal, c :: rest =>
    if c = '$' then tokensRec ScanMode.dollar rest
    else tokensRec ScanMode.normal rest
  | ScanMode.dollar, c :: rest =>
    if c = lbrace then tokensRec (ScanMode.inTok []) rest
    else tokensRec ScanMode.normal rest
  | ScanMode.inTok acc, c :: rest =>
    if c = rbrace then String.mk acc.reverse :: tokensRec ScanMode.normal rest
    else tokensRec (ScanMode.inTok (c :: acc)) rest

/-- Modelled from the spec: §4.2 template rendering. -/
def renderTemplate (b : List (String × String)) (t : String) : Option String :=
  (renderRec b ScanMode.normal t.data).map (fun cs => String.mk cs)

/-- The token names of a template string. -/
def templateTokens (t : String) : List String :=
  tokensRec ScanMode.normal t.data

/-- Rendering of a heterogeneous field value into the context block. -/
def fieldValStr : FieldVal → String
  | FieldVal.str s => s
  | FieldVal.seq xs => "[" ++ String.intercalate ", " xs ++ "]"

/-- Modelled from the spec: §4.2 context block line
`<nodeId>: <schemaName>: {field: value, …}`. -/
def sContextLine (nodeId : String) (v : SValue) : String :=
  "\n\n" ++ nodeId ++ ": " ++ v.schemaName ++ ": " ++
    Flowchart.reprFields (v.fields.map (fun p => (p.1, fieldValStr p.2)))

/-- The prompt for one visit: rendered template, context block in
extraction order, then the run's initial input. -/
def sPrompt (rendered : String) (ext : List (String × SValue)) (input : String) : String :=
  (ext.foldl (fun acc p => acc ++ sContextLine p.1 p.2) rendered) ++ "\n" ++ input

/-- Modelled from the spec: §4.3 LoopStart collection resolution — the
sequence previously extracted under `collectionFieldName`; `none` when it
is missing or not a sequence. -/
def resolveCollection (name : String) (ext : List (String × SValue)) : Option (List String) :=
  match ext.findSome? (fun p => List.lookup name p.2.fields) with
  | some (FieldVal.seq xs) => some xs
  | _ => none

/-- Modelled from the spec: the LoopContinue paired with a LoopStart is
the loop-continue node whose `HasMore` connection targets it; return that
node's `Complete` target. -/
def pairedCompleteTarget (fc : SFlowDef) (loopStartId : String) : Option String :=
  fc.findSome? (fun p =>
    match p.2.kind with
    | SNodeKind.loopContinue =>
      if List.lookup "HasMore" p.2.connections = some loopStartId then
        List.lookup "Complete" p.2.connections
      else none
    | _ => none)

/-- The model collaborator of the spec engine. -/
structure SCollaborator where
  askText : String → String → String
  askDecision : String → String → List String → String × String
  askStructured : String → String → Flowchart.SchemaDesc → SValue

inductive SErr where
  | configurationError (msg : String)
  | keyError (id : String)
deriving DecidableEq

inductive SResult where
  | text (s : String)
  | structured (v : SValue)
deriving DecidableEq

/-- The traversal context of one run of the spec engine. -/
structure SState where
  flowchart : SFlowDef
  systemPrompt : String
  current : String
  extracted : List (String × SValue) := []
  loopStack : List LoopScope := []
  visited : List String := []
deriving DecidableEq

inductive SStepResult where
  | next (s : SState)
  | finished (r : SResult) (s : SState)
  | error (e : SErr)
deriving DecidableEq

/-- Modelled from the spec: first entry into a LoopStart — resolve the
collection; on an empty collection skip to the paired LoopContinue's
`Complete` target with no model call; otherwise push the scope
(binding `iteratorName → collection[0]`) and enter the body. -/
def loopFirstEntry (s0 : SState) (node : SNode) (it coll : String)
    (s : SState) : SStepResult :=
  match resolveCollection coll s.extracted with
  | none => SStepResult.error (SErr.configurationError "missing or non-sequence loop collection")
  | some xs =>
    match xs with
    | [] =>
      match pairedCompleteTarget s.flowchart s.current with
      | some t => SStepResult.next { s0 with current := t }
      | none => SStepResult.error (SErr.configurationError "no paired loop continue")
    | _ :: _ =>
      match node.connections with
      | [(_, t)] =>
        SStepResult.next
          { s0 with
            loopStack := { iteratorName := it, collection := xs, index := 0 } :: s.loopStack,
            current := t }
      | _ => SStepResult.error (SErr.configurationError "loop start needs a single connection")

/-- Modelled from the spec: one step of the traversal engine (§4.3). -/
def specStep (c : SCollaborator) (input : String) (s : SState) : SStepResult :=
  match s.flowchart.lookup s.current with
  | none => SStepResult.error (SErr.keyError s.current)
  | some node =>
    let s0 := { s with visited := s.visited ++ [s.current] }
    match node.kind with
    | SNodeKind.loopStart it coll =>
      match s.loopStack with
      | sc :: _ =>
        if sc.iteratorName == it then
          match node.connections with
          | [(_, t)] => SStepResult.next { s0 with current := t }
          | _ => SStepResult.error (SErr.configurationError "loop start needs a single connection")
        else loopFirstEntry s0 node it coll s
      | [] => loopFirstEntry s0 node it coll s
    | SNodeKind.loopContinue =>
      match s.loopStack with
      | [] => SStepResult.error (SErr.configurationError "loop continue without open loop")
      | sc :: rest =>
        if sc.index + 1 < sc.collection.length then
          match List.lookup "HasMore" node.connections with
          | some t =>
            SStepResult.next
              { s0 with loopStack := { sc with index := sc.index + 1 } :: rest, current := t }
          | none => SStepResult.error (SErr.configurationError "missing HasMore connection")
        else
          match List.lookup "Complete" node.connections with
          | some t => SStepResult.next { s0 with loopStack := rest, current := t }
          | none => SStepResult.error (SErr.configurationError "missing Complete connection")
    | SNodeKind.plain =>
      match renderTemplate (currentBindings s.loopStack) node.text with
      | none => SStepResult.error (SErr.configurationError "unbound template variable")
      | some rendered =>
        let prompt := sPrompt rendered s.extracted input
        match node.connections with
        | [] =>
          match node.schema with
          | some sch =>
            SStepResult.finished (SResult.structured (c.askStructured prompt s.systemPrompt sch)) s0
          | none =>
            SStepResult.finished (SResult.text (c.askText prompt s.systemPrompt)) s0
        | [(_, t)] =>
          match node.schema with
          | some sch =>
            let v := c.askStructured prompt s.systemPrompt sch
            SStepResult.next
              { s0 with extracted := Flowchart.upsert s.current v s.extracted, current := t }
          | none => SStepResult.next { s0 with current := t }
        | (_, t0) :: _ :: _ =>
          let dr := c.askDecision prompt s.systemPrompt (node.connections.map Prod.fst)
          SStepResult.next { s0 with current := (node.connections.lookup dr.1).getD t0 }

inductive SRunOutcome where
  | outOfFuel
  | finished (r : SResult) (s : SState)
  | error (e : SErr)
deriving DecidableEq

def specRunLoop (c : SCollaborator) (input : String) : Nat → SState → SRunOutcome
  | 0, _ => SRunOutcome.outOfFuel
  | Nat.succ n, s =>
    match specStep c input s with
    | SStepResult.next s2 => specRunLoop c input n s2
    | SStepResult.finished r s2 => SRunOutcome.finished r s2
    | SStepResult.error e => SRunOutcome.error e

def specRun (c : SCollaborator) (s : SState) (input : String) (fuel : Nat) : SRunOutcome :=
  specRunLoop c input fuel s

def sVisitedOf : SRunOutcome → Option (List String)
  | SRunOutcome.finished _ s => some s.visited
  | _ => none

/-! The `every_message_flowchart` of `src/backend/ai/assistant/week_analyser.py`,
the one flowchart in the sources that uses loop nodes and `${...}`
templates. -/

def allPlanNamesSchema : Flowchart.SchemaDesc :=
  { name := "AllPlanNamesSchema", fieldNames := ["plan_names"] }

def suggestedSessionsSchema : Flowchart.SchemaDesc :=
  { name := "SuggestedNextWeekSessions", fieldNames := ["plan_name", "next_week_sessions"] }

def checkPlanDiscussedText : String :=
  "Based exclusively on the very conversation, have you asked the user to specifically discuss \x27$\x7bcurrent_plan\x7d\x27 and user accepted?"

def weekFlow : SFlowDef :=
  [("Start",
    { text := "Start the conversation.",
      connections := [("default", "ExtractPlanNames")] }),
   ("ExtractPlanNames",
    { text := "Extract all plan names from the users plan list.",
      connections := [("default", "StartPlanLoop")],
      schema := some allPlanNamesSchema }),
   ("StartPlanLoop",
    { kind := SNodeKind.loopStart "current_plan" "plan_names",
      connections := [("default", "CheckPlanDiscussed")] }),
   ("CheckPlanDiscussed",
    { text := checkPlanDiscussedText,
      connections := [("Yes", "CheckNextWeekPlans"), ("No", "AskToDiscussPlan")] }),
   ("AskToDiscussPlan",
    { text := "Ask the user if they would like to discuss the plan \x27$\x7bcurrent_plan\x7d\x27." }),
   ("CheckNextWeekPlans",
    { text := "Did the user explictly mention in the recent conversation history which upcoming week\x27s sessions for plan $\x7bcurrent_plan\x7d\x27 he is intending on doing? Note that a mention that no adjustments are needed is also an explicit mention and should be answered with \x27Yes\x27",
      connections := [("Yes", "CheckSuggestedChanges"), ("No", "AskNextWeekPlans")] }),
   ("AskNextWeekPlans",
    { text := "Remind the user of his upcoming week planned sessions for \x27$\x7bcurrent_plan\x7d\x27 and ask what\x27s his plans about it / if he plans on doing them all." }),
   ("CheckSuggestedChanges",
    { text := "Based on recent conversation history, do you suggest any change to \x27$\x7bcurrent_plan\x7d\x27 upcoming week\x27s sessions? Note that the frequency of the sessions is much more important than the day of the week.",
      connections := [("Yes", "SuggestedChanges"), ("No", "NextPlan")] }),
   ("SuggestedChanges",
    { text := "Analyse and suggest changes for plan \x27$\x7bcurrent_plan\x7d\x27. You can only make changes to the plan sessions date & details.",
      schema := some suggestedSessionsSchema,
      connections := [("default", "InformTheUsreAboutTheChanges")] }),
   ("InformTheUsreAboutTheChanges",
    { text := "Inform the user that you\x27ve generated some upcoming week changes, which he needs to accept or reject." }),
   ("NextPlan",
    { kind := SNodeKind.loopContinue,
      connections := [("HasMore", "StartPlanLoop"), ("Complete", "Conclude")] }),
   ("Conclude",
    { text := "Wrap up the conversation with a summary of what was discussed and what actions were decided." })]

/-- The initial traversal context for a run over `weekFlow` (its start
node, `Start`, is the unique id that is never a connection target). -/
def weekStart : SState :=
  { flowchart := weekFlow, systemPrompt := "sys", current := "Start" }

/-- Stub collaborator whose plan-name extraction yields the empty
sequence. -/
def stubEmptyPlans : SCollaborator :=
  { askText := fun _ _ => "final",
    askDecision := fun _ _ _ => ("Yes", "why"),
    askStructured := fun _ _ sch =>
      { schemaName := sch.name,
        fields := sch.fieldNames.map (fun f => (f, FieldVal.seq [])) } }

/-- The traversal context of the `stubEmptyPlans` run over `weekFlow`
just as it reaches `StartPlanLoop`: an empty plan-name sequence has been
extracted and no loop is open. -/
def loopEntryState : SState :=
  { flowchart := weekFlow, systemPrompt := "sys", current := "StartPlanLoop",
    extracted := [("ExtractPlanNames",
      { schemaName := "AllPlanNamesSchema",
        fields := [("plan_names", FieldVal.seq [])] })],
    loopStack := [], visited := ["Start", "ExtractPlanNames"] }

end SpecModel

/-! ## Theorems -/

namespace Flowchart

/-- Auxiliary: `find?` is the head of the filtered list. -/
theorem find?_eq_head?_filter {α : Type} (p : α → Bool) (l : List α) :
    l.find? p = (l.filter p).head? := by
  induction l with
  | nil => rfl
  | cons a l ih =>
    rw [List.find?, List.filter]
    cases p a
    · exact ih
    · rfl

/-- C10: a node with exactly one connection and no schema causes no model
invocation: the step is the same for every collaborator, the extracted
map, decisions and reasoning are unchanged, a trace entry recording the
sole connection target as next node is appended, and the engine advances
to that target. -/
theorem c10_transition_no_model_call
    (c : Collaborator) (input : String) (s : RunState) (node : Node)
    (l t : String)
    (hnode : s.fw.flowchart.lookup s.current = some node)
    (hconn : node.connections = [(l, t)])
    (hschema : node.schema = none) :
    (∃ s2, step c input s = StepResult.next s2 ∧
      s2.current = t ∧
      s2.fw.extracted = s.fw.extracted ∧
      s2.fw.decisions = s.fw.decisions ∧
      s2.fw.reasoning = s.fw.reasoning ∧
      s2.traversal = s.traversal ++
        [{ node := s.current, text := node.text, options := [l],
           next_node := some t }]) ∧
    ∀ c2 : Collaborator, step c2 input s = step c input s := by
  constructor
  · exact ⟨{ fw := { s.fw with visitedNodes := s.fw.visitedNodes ++ [s.current] },
             current := t,
             traversal := s.traversal ++
               [{ node := s.current, text := node.text, options := [l],
                  next_node := some t }] },
           by simp [step, hnode, hconn, hschema], rfl, rfl, rfl, rfl, rfl⟩
  · intro c2
    simp [step, hnode, hconn, hschema]

/-- Witness for C10 at the concrete flowchart `fcT`, node `P`. -/
theorem c10_witness :
    ∃ s2, step stubYes "x" (initRun fwT) = StepResult.next s2 ∧
      s2.current = "E" ∧ s2.fw.extracted = [] ∧ s2.fw.decisions = [] := by
  obtain ⟨⟨s2, hstep, hcur, hext, hdec, -, -⟩, -⟩ :=
    c10_transition_no_model_call stubYes "x" (initRun fwT)
      { text := "p", connections := [("d", "E")] } "d" "E" rfl rfl rfl
  exact ⟨s2, hstep, hcur, hext, hdec⟩

/-- C8: at a terminal node (no connections) the engine invokes the model
in schema mode when the node declares a schema and in text mode otherwise,
appends a trace entry and stops; a completed `run` returns the pair of
that result and the extracted map. -/
theorem c8_terminal_node
    (c : Collaborator) (input : String) (s : RunState) (node : Node)
    (hnode : s.fw.flowchart.lookup s.current = some node)
    (hconn : node.connections = []) :
    step c input s = StepResult.finished
      (match node.schema with
       | some sch => LLMResult.structured (c.askStructured
           (fullPrompt (buildNodePrompt node.text s.fw.extracted) input)
           s.fw.systemPrompt sch)
       | none => LLMResult.text (c.askText
           (fullPrompt (buildNodePrompt node.text s.fw.extracted) input)
           s.fw.systemPrompt (nodeTemperature node)))
      { s.fw with visitedNodes := s.fw.visitedNodes ++ [s.current] }
      (s.traversal ++ [{ node := s.current, text := node.text, options := [] }]) ∧
    ∀ (fw : Framework) (fuel : Nat) (r : LLMResult) (fw2 : Framework)
      (tr : List TraceEntry),
      run c fw input fuel = RunOutcome.finished r fw2 tr →
      runReturn (run c fw input fuel) = some (r, fw2.extracted) := by
  constructor
  · cases hs : node.schema <;> simp [step, hnode, hconn, hs]
  · intro fw fuel r fw2 tr h
    rw [h]
    rfl

/-- Witness for C8: the terminal node `B` of `fcABC` (text mode). -/
theorem c8_witness :
    step stubYes "x"
      { fw := fwABC, current := "B", traversal := [] } = StepResult.finished
        (LLMResult.text "final")
        { fwABC with visitedNodes := ["B"] }
        [{ node := "B", text := "btext", options := [] }] := by
  have h := (c8_terminal_node stubYes "x"
    { fw := fwABC, current := "B", traversal := [] } { text := "btext" } rfl rfl).1
  exact h

/-- C1: at a decision node (more than one connection) the engine asks the
collaborator for a label and advances to `connections[label]` when the
label is declared, and to the first declared connection's target
otherwise; concretely, on `A = Decision(Yes: B, No: C)` a collaborator
answering `Yes` reaches `B` and terminates having visited exactly
`[A, B]` (so `C`'s model call never happens), and a collaborator
answering the undeclared label `Maybe` also advances to the first target
`B`. -/
theorem c1_decision_routing :
    (∀ (c : Collaborator) (input : String) (s : RunState) (node : Node)
       (p0 p1 : String × String) (rest : List (String × String)),
       s.fw.flowchart.lookup s.current = some node →
       node.connections = p0 :: p1 :: rest →
       stepCurrentOf (step c input s) = some ((node.connections.lookup
         ((c.askDecision (fullPrompt (buildNodePrompt node.text s.fw.extracted) input)
           s.fw.systemPrompt (node.connections.map Prod.fst)).1)).getD p0.2)) ∧
    visitedOf (run stubYes fwABC "in" 10) = some ["A", "B"] ∧
    visitedOf (run stubMaybe fwABC "in" 10) = some ["A", "B"] := by
  refine ⟨?_, by decide, by decide⟩
  intro c input s node p0 p1 rest hnode hconn
  obtain ⟨l0, t0⟩ := p0
  obtain ⟨l1, t1⟩ := p1
  simp [step, hnode, hconn, stepCurrentOf]

/-- Witness for C1: the fallback case at node `A` with the undeclared
label `Maybe` resolves to the first declared target `B`. -/
theorem c1_witness :
    stepCurrentOf (step stubMaybe "in" (initRun fwABC)) = some "B" := by
  obtain ⟨h, -, -⟩ := c1_decision_routing
  have h2 := h stubMaybe "in" (initRun fwABC)
    { text := "is it?", connections := [("Yes", "B"), ("No", "C")] }
    ("Yes", "B") ("No", "C") [] rfl rfl
  rw [h2]
  rfl

/-- Auxiliary: the exact result of a step at a single-connection node
without schema. -/
theorem step_transition_eq
    (c : Collaborator) (input : String) (s : RunState) (node : Node)
    (l t : String)
    (hnode : s.fw.flowchart.lookup s.current = some node)
    (hconn : node.connections = [(l, t)])
    (hschema : node.schema = none) :
    step c input s = StepResult.next
      { fw := { s.fw with visitedNodes := s.fw.visitedNodes ++ [s.current] },
        current := t,
        traversal := s.traversal ++
          [{ node := s.current, text := node.text, options := [l],
             next_node := some t }] } := by
  simp [step, hnode, hconn, hschema]

/-- Auxiliary: inside `fcCycle` every step continues to another of its
three nodes; the run can never leave the cycle. -/
theorem step_cycle (c : Collaborator) (input : String) (s : RunState)
    (hfc : s.fw.flowchart = fcCycle)
    (hcur : s.current = "S" ∨ s.current = "A" ∨ s.current = "B") :
    ∃ s2, step c input s = StepResult.next s2 ∧ s2.fw.flowchart = fcCycle ∧
      (s2.current = "S" ∨ s2.current = "A" ∨ s2.current = "B") := by
  rcases hcur with h | h | h
  · exact ⟨_, step_transition_eq c input s
      { text := "s", connections := [("default", "A")] } "default" "A"
      (by rw [hfc, h]; rfl) rfl rfl, hfc, Or.inr (Or.inl rfl)⟩
  · exact ⟨_, step_transition_eq c input s
      { text := "a", connections := [("d", "B")] } "d" "B"
      (by rw [hfc, h]; rfl) rfl rfl, hfc, Or.inr (Or.inr rfl)⟩
  · exact ⟨_, step_transition_eq c input s
      { text := "b", connections := [("d", "A")] } "d" "A"
      (by rw [hfc, h]; rfl) rfl rfl, hfc, Or.inr (Or.inl rfl)⟩

/-- Auxiliary: starting anywhere inside `fcCycle`, every fuel budget runs
out. -/
theorem runLoop_cycle (c : Collaborator) (input : String) :
    ∀ (n : Nat) (s : RunState), s.fw.flowchart = fcCycle →
      (s.current = "S" ∨ s.current = "A" ∨ s.current = "B") →
      runLoop c input n s = RunOutcome.outOfFuel := by
  intro n
  induction n with
  | zero => intro s _ _; rfl
  | succ n ih =>
    intro s hfc hcur
    obtain ⟨s2, hstep, hfc2, hcur2⟩ := step_cycle c input s hfc hcur
    rw [runLoop, hstep]
    exact ih s2 hfc2 hcur2

/-- C2 counterexample: `run` enforces no visit cap at all.  On the cyclic
flowchart `fcCycle` (accepted by the constructor) the run neither
terminates nor raises: it consumes every fuel budget, for any collaborator
behaviour — here the concrete stub.  No `ConfigurationError` (or
`LanguageModelError`) type even exists in the sources. -/
theorem c2_counterexample :
    neverTerminates stubYes fwCycle "x" ∧
    mkFramework fcCycle "sys" = some fwCycle := by
  constructor
  · intro fuel
    exact runLoop_cycle stubYes "x" fuel (initRun fwCycle) rfl (Or.inl rfl)
  · decide

/-- Auxiliary: a step only finishes at a node with empty connections, and
the resulting engine state has the current node appended to
`visited_nodes`. -/
theorem step_finished_shape
    (c : Collaborator) (input : String) (s : RunState)
    (r : LLMResult) (fw : Framework) (tr : List TraceEntry)
    (h : step c input s = StepResult.finished r fw tr) :
    ∃ node, s.fw.flowchart.lookup s.current = some node ∧
      node.connections = [] ∧
      fw = { s.fw with visitedNodes := s.fw.visitedNodes ++ [s.current] } := by
  cases hl : s.fw.flowchart.lookup s.current with
  | none => simp [step, hl] at h
  | some node =>
    refine ⟨node, rfl, ?_⟩
    cases hc : node.connections with
    | nil =>
      refine ⟨rfl, ?_⟩
      cases hs : node.schema with
      | none =>
        simp only [step, hl, hc, hs, StepResult.finished.injEq] at h
        exact h.2.1.symm
      | some sch =>
        simp only [step, hl, hc, hs, StepResult.finished.injEq] at h
        exact h.2.1.symm
    | cons p rest =>
      obtain ⟨l0, t0⟩ := p
      cases rest with
      | nil =>
        cases hs : node.schema with
        | none => simp [step, hl, hc, hs] at h
        | some sch => simp [step, hl, hc, hs] at h
      | cons q rest2 =>
        obtain ⟨l1, t1⟩ := q
        simp [step, hl, hc] at h

/-- C2 amended: the engine has no step cap and never raises a
configuration error for exceeding one; when a run completes, it completes
exactly at a node with empty connections (the last visited node), and on
a cyclic flowchart it loops forever (see the counterexample). -/
theorem c2_amended_terminal_only
    (c : Collaborator) (input : String) (n : Nat) (s : RunState)
    (r : LLMResult) (fw : Framework) (tr : List TraceEntry)
    (h : runLoop c input n s = RunOutcome.finished r fw tr) :
    ∃ id node, fw.visitedNodes.getLast? = some id ∧
      fw.flowchart.lookup id = some node ∧ node.connections = [] := by
  induction n generalizing s with
  | zero => exact absurd h (by simp [runLoop])
  | succ n ih =>
    rw [runLoop] at h
    cases hstep : step c input s with
    | next s2 =>
      rw [hstep] at h
      exact ih s2 h
    | finished r2 fw2 tr2 =>
      rw [hstep] at h
      obtain ⟨node, hl, hconn, hfw⟩ :=
        step_finished_shape c input s r2 fw2 tr2 hstep
      cases h
      refine ⟨s.current, node, ?_, ?_, hconn⟩
      · rw [hfw]
        exact List.getLast?_concat _
      · rw [hfw]
        exact hl
    | error e =>
      rw [hstep] at h
      exact absurd h (by simp)

/-- Witness for C2 (amended): the concrete run over `fcABC` finishes, and
its last visited node is terminal. -/
theorem c2_witness :
    ∃ r fw tr,
      runLoop stubYes "x" 10 (initRun fwABC) = RunOutcome.finished r fw tr ∧
      ∃ id node, fw.visitedNodes.getLast? = some id ∧
        fw.flowchart.lookup id = some node ∧ node.connections = [] :=
  ⟨_, _, _, rfl,
    c2_amended_terminal_only stubYes "x" 10 (initRun fwABC) _ _ _ rfl⟩

/-- C3 counterexample: in `fcTwo` BOTH ids `A` and `B` appear in no
node's connections values, yet construction does not fail — it silently
resolves the start node to the first of them. -/
theorem c3_counterexample :
    (nonTargetIds fcTwo).length = 2 ∧
    mkFramework fcTwo "sys" =
      some { flowchart := fcTwo, systemPrompt := "sys", startNode := "A" } := by
  exact ⟨by decide, by decide⟩

/-- C3 amended: start-node resolution selects the FIRST node id (in
declaration order) that appears in no node's connections values — with no
uniqueness check — and construction fails (an uncaught `StopIteration`,
not a `ConfigurationError`) exactly when no such id exists. -/
theorem c3_amended_first_non_target (fc : FlowDef) (sys : String) :
    (mkFramework fc sys).map Framework.startNode = (nonTargetIds fc).head? ∧
    (mkFramework fc sys = none ↔ nonTargetIds fc = []) := by
  have hfind : findStartNode fc = (nonTargetIds fc).head? := by
    unfold findStartNode nonTargetIds
    rw [find?_eq_head?_filter, List.head?_map]
  constructor
  · rw [mkFramework, hfind]
    cases (nonTargetIds fc).head? <;> rfl
  · rw [mkFramework, hfind, ← List.head?_eq_none_iff]
    cases (nonTargetIds fc).head? <;> simp

/-- Witness for C3 (amended), at the two-candidate flowchart `fcTwo`. -/
theorem c3_witness :
    (mkFramework fcTwo "sys").map Framework.startNode =
      (nonTargetIds fcTwo).head? ∧
    (mkFramework fcTwo "sys" = none ↔ nonTargetIds fcTwo = []) :=
  c3_amended_first_non_target fcTwo "sys"

/-- C7 counterexample: construction succeeds — raising nothing — on
`fcDangle`, whose only connection targets the undeclared id `Ghost`, and
on `fcBoth`, whose node `M` declares both a schema and two connections.
No load-time validation beyond start-node resolution exists. -/
theorem c7_counterexample :
    mkFramework fcDangle "sys" = some fwDangle ∧
    mkFramework fcBoth "sys" = some fwBoth :=
  ⟨by decide, by decide⟩

/-- C7 amended: construction succeeds exactly when some id is never a
connection target — dangling targets and schema/multi-connection
conflicts are not checked at load time.  A dangling target surfaces only
at visit time, as a `KeyError`; a node with a schema and two connections
is silently treated as a decision node, its schema never invoked (the
run over `fcBoth` completes with an empty extracted map and a recorded
decision at `M`). -/
theorem c7_amended_no_load_time_validation (fc : FlowDef) (sys : String) :
    ((mkFramework fc sys).isSome = true ↔ nonTargetIds fc ≠ []) ∧
    run stubYes fwDangle "x" 5 = RunOutcome.error (RunErr.keyError "Ghost") ∧
    (frameworkOf (run stubYes fwBoth "x" 10)).map
      (fun fw => (fw.extracted, fw.decisions, fw.visitedNodes)) =
      some ([], [("M", "Yes")], ["S", "M", "X"]) := by
  refine ⟨?_, by decide, by decide⟩
  have hfind : findStartNode fc = (nonTargetIds fc).head? := by
    unfold findStartNode nonTargetIds
    rw [find?_eq_head?_filter, List.head?_map]
  rw [mkFramework, hfind]
  cases h2 : (nonTargetIds fc).head? with
  | none => simp [List.head?_eq_none_iff.mp h2]
  | some a =>
    constructor
    · intro _ hnil
      rw [hnil] at h2
      exact Option.noConfusion h2
    · intro _
      rfl

/-- Witness for C7 (amended), at `fcDangle`. -/
theorem c7_witness :
    (mkFramework fcDangle "sys").isSome = true ↔ nonTargetIds fcDangle ≠ [] :=
  (c7_amended_no_load_time_validation fcDangle "sys").1

/-- C9 counterexample: after a first run of `fw9` (which extracts `v9` at
node `Ext`), a second run on the same engine instance does NOT start with
an empty extracted map: `run`'s prologue resets `visited_nodes` and
`decisions` but not `self.extracted`, so the first run's value appears in
the second run's prompts and in its returned extracted map. -/
theorem c9_counterexample :
    (frameworkOf (run stubYes fw9 "x" 10)).map
      (fun fw => (initRun fw).fw.extracted) = some [("Ext", v9)] ∧
    (frameworkOf (run stubYes fw9 "x" 10)).map
      (fun fw => (initRun fw).fw.extracted.isEmpty) = some false ∧
    (frameworkOf (run stubYes fw9 "x" 10)).map
      (fun fw => buildNodePrompt "e" (initRun fw).fw.extracted) =
      some ("e" ++ contextLine v9) ∧
    ((frameworkOf (run stubYes fw9 "x" 10)).bind
      (fun fw1 => runReturn (run stubYes fw1 "x" 10))).map Prod.snd =
      some [("Ext", v9)] :=
  ⟨by decide, by decide, by decide, by decide⟩

/-- C9 amended: `run` resets `visited_nodes` and `decisions` at run start
but keeps `extracted` (and `reasoning`) from the engine instance, so
isolation only holds across distinct instances; a freshly constructed
engine does start with an empty extracted map (and the calling assistants
construct a fresh engine per message). -/
theorem c9_amended_reset_incomplete (fw : Framework) :
    (initRun fw).fw.visitedNodes = [] ∧
    (initRun fw).fw.decisions = [] ∧
    (initRun fw).fw.extracted = fw.extracted ∧
    (initRun fw).fw.reasoning = fw.reasoning ∧
    (initRun fw).current = fw.startNode ∧
    ∀ (fc : FlowDef) (sys : String) (fw2 : Framework),
      mkFramework fc sys = some fw2 → fw2.extracted = [] := by
  refine ⟨rfl, rfl, rfl, rfl, rfl, ?_⟩
  intro fc sys fw2 h
  unfold mkFramework at h
  cases hf : findStartNode fc with
  | none => rw [hf] at h; cases h
  | some a => rw [hf] at h; cases h; rfl

/-- Witness for C9 (amended): the freshly constructed `fw9` has an empty
extracted map, and its runs start with `decisions` reset. -/
theorem c9_witness :
    fw9.extracted = [] ∧ (initRun fw9).fw.decisions = [] :=
  ⟨(c9_amended_reset_incomplete fw9).2.2.2.2.2 fc9 "sys" fw9 (by decide),
   (c9_amended_reset_incomplete fw9).2.1⟩

/-- Auxiliary: character data of the built prompt. -/
theorem buildNodePrompt_data (ext : List (String × StructuredValue)) :
    ∀ text : String, (buildNodePrompt text ext).data =
      text.data ++ (ext.map (fun p => (contextLine p.2).data)).flatten := by
  induction ext with
  | nil => intro text; simp [buildNodePrompt]
  | cons p ext ih =>
    intro text
    show (buildNodePrompt (text ++ contextLine p.2) ext).data = _
    rw [ih]
    simp [String.data_append, List.append_assoc]

/-- Auxiliary: `String.join` distributes over list append. -/
theorem string_join_append (l1 l2 : List String) :
    String.join (l1 ++ l2) = String.join l1 ++ String.join l2 := by
  apply String.ext
  simp [String.data_join, String.data_append, List.flatten_append]

/-- Auxiliary: assigning a fresh key in an ordered dict appends it. -/
theorem upsert_fresh_append {α : Type} (id : String) (v : α) :
    ∀ ext : List (String × α), id ∉ ext.map Prod.fst →
      upsert id v ext = ext ++ [(id, v)] := by
  intro ext
  induction ext with
  | nil => intro _; rfl
  | cons p ext ih =>
    intro h
    obtain ⟨k, w⟩ := p
    simp only [List.map_cons, List.mem_cons, not_or] at h
    rw [upsert, if_neg (by simp [Ne.symm h.1]), ih h.2, List.cons_append]

/-- C6 counterexample: the context line rendered into a later prompt for
the value extracted at node `N1` begins with the literal word `Context`,
not with the node id: it differs from the `<nodeId>: <schemaName>: {…}`
shape the claim states. -/
theorem c6_counterexample :
    buildNodePrompt "T" [("N1", svX)] = "T\n\nContext: S: \x7ba: b\x7d" ∧
    "T\n\nContext: S: \x7ba: b\x7d" ≠ "T" ++ specC6ContextLine "N1" svX :=
  ⟨by decide, by decide⟩

/-- C6 amended: the prompt appends, in extraction order (which is
node-visitation order, since a newly extracted node id is appended at the
end of the ordered map), one context line per previously extracted value
of the form `Context: <schemaName>: {field: value, …}` — the node id is
not part of the line; every extracted value's line reappears, with its
full field list unchanged, in every later prompt; and the value stored at
an extraction step is exactly the collaborator's structured reply. -/
theorem c6_amended_context_block :
    (∀ (text : String) (ext : List (String × StructuredValue)),
      buildNodePrompt text ext =
        text ++ String.join (ext.map (fun p => contextLine p.2))) ∧
    (∀ (text : String) (ext : List (String × StructuredValue)) (id : String)
       (v : StructuredValue), (id, v) ∈ ext →
      ∃ pre post, buildNodePrompt text ext = pre ++ (contextLine v ++ post)) ∧
    (∀ (ext : List (String × StructuredValue)) (id : String) (v : StructuredValue),
      id ∉ ext.map Prod.fst → upsert id v ext = ext ++ [(id, v)]) ∧
    (∀ (c : Collaborator) (input : String) (s : RunState) (node : Node)
       (sch : SchemaDesc) (l t : String),
      s.fw.flowchart.lookup s.current = some node →
      node.connections = [(l, t)] →
      node.schema = some sch →
      stepExtractedOf (step c input s) = some (upsert s.current
        (c.askStructured (fullPrompt (buildNodePrompt node.text s.fw.extracted) input)
          s.fw.systemPrompt sch)
        s.fw.extracted)) := by
  refine ⟨?_, ?_, ?_, ?_⟩
  · intro text ext
    apply String.ext
    rw [buildNodePrompt_data]
    simp [String.data_append, String.data_join, List.map_map]
    rfl
  · intro text ext id v hmem
    obtain ⟨e1, e2, rfl⟩ := List.append_of_mem hmem
    refine ⟨text ++ String.join (e1.map (fun p => contextLine p.2)),
            String.join (e2.map (fun p => contextLine p.2)), ?_⟩
    apply String.ext
    rw [buildNodePrompt_data]
    simp [String.data_append, String.data_join, List.flatten_append,
      List.map_map, List.append_assoc]
    rfl
  · intro ext id v h
    exact upsert_fresh_append id v ext h
  · intro c input s node sch l t hnode hconn hschema
    simp [step, hnode, hconn, hschema, stepExtractedOf]

/-- Witness for C6 (amended): the value stored under `N1` reappears
verbatim in a later prompt, and extraction at `Ext` stores the
collaborator's reply. -/
theorem c6_witness :
    (∃ pre post, buildNodePrompt "T" [("N1", svX)] =
      pre ++ (contextLine svX ++ post)) ∧
    stepExtractedOf (step stubYes "x" (initRun fw9)) =
      some (upsert "Ext"
        (stubYes.askStructured (fullPrompt (buildNodePrompt "e" []) "x") "sys" schPlans)
        []) := by
  constructor
  · exact c6_amended_context_block.2.1 "T" [("N1", svX)] "N1" svX (by simp)
  · exact c6_amended_context_block.2.2.2 stubYes "x" (initRun fw9)
      { text := "e", schema := some schPlans, connections := [("default", "End")] }
      schPlans "default" "End" rfl rfl rfl

end Flowchart

namespace SpecModel

/-- C4: at a LoopStart whose resolved collection is empty (and no scope
of the same iterator is already open), the engine advances directly to
the paired LoopContinue's `Complete` target — extracted map and loop
stack unchanged, no model call (the step is collaborator-independent);
concretely, the run of `weekFlow` with an extracted empty plan list
visits no loop-body node: its trace is exactly
`Start, ExtractPlanNames, StartPlanLoop, Conclude`. -/
theorem c4_empty_loop_skip :
    (∀ (c : SCollaborator) (input : String) (s : SState) (node : SNode)
       (it coll t : String),
       s.flowchart.lookup s.current = some node →
       node.kind = SNodeKind.loopStart it coll →
       (∀ sc, s.loopStack.head? = some sc → sc.iteratorName ≠ it) →
       resolveCollection coll s.extracted = some [] →
       pairedCompleteTarget s.flowchart s.current = some t →
       specStep c input s = SStepResult.next
         { s with visited := s.visited ++ [s.current], current := t } ∧
       ∀ c2 : SCollaborator, specStep c2 input s = specStep c input s) ∧
    sVisitedOf (specRun stubEmptyPlans weekStart "in" 20) =
      some ["Start", "ExtractPlanNames", "StartPlanLoop", "Conclude"] ∧
    "CheckPlanDiscussed" ∉
      (["Start", "ExtractPlanNames", "StartPlanLoop", "Conclude"] : List String) := by
  refine ⟨?_, by decide, by decide⟩
  intro c input s node it coll t hnode hkind hstack hres hpair
  have key : ∀ c3 : SCollaborator, specStep c3 input s = SStepResult.next
      { s with visited := s.visited ++ [s.current], current := t } := by
    intro c3
    cases hls : s.loopStack with
    | nil => simp [specStep, hnode, hkind, hls, loopFirstEntry, hres, hpair]
    | cons sc rest =>
      have hne : (sc.iteratorName == it) = false :=
        beq_eq_false_iff_ne.mpr (hstack sc (by rw [hls]; rfl))
      simp [specStep, hnode, hkind, hls, hne, loopFirstEntry, hres, hpair]
  exact ⟨key c, fun c2 => (key c2).trans (key c).symm⟩

/-- Witness for C4: the concrete empty-collection entry into
`StartPlanLoop` jumps straight to `Conclude`. -/
theorem c4_witness :
    specStep stubEmptyPlans "in" loopEntryState = SStepResult.next
      { loopEntryState with
        visited := loopEntryState.visited ++ ["StartPlanLoop"],
        current := "Conclude" } := by
  exact (c4_empty_loop_skip.1 stubEmptyPlans "in" loopEntryState
    { kind := SNodeKind.loopStart "current_plan" "plan_names",
      connections := [("default", "CheckPlanDiscussed")] }
    "current_plan" "plan_names" "Conclude" rfl rfl
    (fun sc h => Option.noConfusion h) (by decide) rfl).1

/-- Auxiliary: if some token of the template has no binding, the scan
returns `none` (the `ConfigurationError`), whatever the scanner state. -/
theorem renderRec_none_of_unbound (b : List (String × String)) :
    ∀ (cs : List Char) (mode : ScanMode),
      (∃ n, n ∈ tokensRec mode cs ∧ List.lookup n b = none) →
      renderRec b mode cs = none := by
  intro cs
  induction cs with
  | nil =>
    intro mode hex
    obtain ⟨n, hn, -⟩ := hex
    cases mode <;> simp [tokensRec] at hn
  | cons c rest ih =>
    intro mode hex
    obtain ⟨n, hn, hlk⟩ := hex
    cases mode with
    | normal =>
      by_cases hc : c = '$'
      · simp only [tokensRec, if_pos hc] at hn
        simp only [renderRec, if_pos hc]
        exact ih ScanMode.dollar ⟨n, hn, hlk⟩
      · simp only [tokensRec, if_neg hc] at hn
        simp only [renderRec, if_neg hc]
        rw [ih ScanMode.normal ⟨n, hn, hlk⟩]
        rfl
    | dollar =>
      by_cases hc : c = lbrace
      · simp only [tokensRec, if_pos hc] at hn
        simp only [renderRec, if_pos hc]
        exact ih (ScanMode.inTok []) ⟨n, hn, hlk⟩
      · simp only [tokensRec, if_neg hc] at hn
        simp only [renderRec, if_neg hc]
        rw [ih ScanMode.normal ⟨n, hn, hlk⟩]
        rfl
    | inTok acc =>
      by_cases hc : c = rbrace
      · simp only [tokensRec, if_pos hc] at hn
        simp only [renderRec, if_pos hc]
        rcases List.mem_cons.mp hn with rfl | hn2
        · rw [hlk]
        · cases hlk2 : List.lookup (String.mk acc.reverse) b with
          | none => rfl
          | some v =>
            rw [ih ScanMode.normal ⟨n, hn2, hlk⟩]
            rfl
      · simp only [tokensRec, if_neg hc] at hn
        simp only [renderRec, if_neg hc]
        exact ih (ScanMode.inTok (c :: acc)) ⟨n, hn, hlk⟩

set_option maxRecDepth 40000

/-- C5: template rendering substitutes each token from the innermost
matching loop binding (the loop stack is searched innermost-first), and a
template containing a token with no matching binding renders to the
`ConfigurationError` — at a plain node this aborts the step before any
model call, so an unresolved token is never left as literal prompt text;
concretely, the real `CheckPlanDiscussed` template of `week_analyser.py`
renders with `current_plan` bound and errors with no binding. -/
theorem c5_template_rendering :
    (∀ (b : List (String × String)) (t : String),
      (∃ n, n ∈ templateTokens t ∧ List.lookup n b = none) →
      renderTemplate b t = none) ∧
    (∀ (stack : List LoopScope) (n : String),
      List.lookup n (currentBindings stack) =
        (stack.find? (fun sc => sc.iteratorName == n)).map boundValue) ∧
    (∀ (c : SCollaborator) (input : String) (s : SState) (node : SNode),
      s.flowchart.lookup s.current = some node →
      node.kind = SNodeKind.plain →
      renderTemplate (currentBindings s.loopStack) node.text = none →
      specStep c input s =
        SStepResult.error (SErr.configurationError "unbound template variable")) ∧
    renderTemplate [("current_plan", "Run 5k")] checkPlanDiscussedText =
      some "Based exclusively on the very conversation, have you asked the user to specifically discuss \x27Run 5k\x27 and user accepted?" ∧
    renderTemplate [] checkPlanDiscussedText = none := by
  refine ⟨?_, ?_, ?_, ?_, ?_⟩
  · intro b t hex
    rw [renderTemplate, renderRec_none_of_unbound b t.data ScanMode.normal hex]
    rfl
  · intro stack n
    induction stack with
    | nil => rfl
    | cons sc rest ih =>
      by_cases h : sc.iteratorName = n
      · subst h
        simp [currentBindings, List.lookup, List.find?]
      · have h1 : (n == sc.iteratorName) = false :=
          beq_eq_false_iff_ne.mpr (fun e => h e.symm)
        have h2 : (sc.iteratorName == n) = false := beq_eq_false_iff_ne.mpr h
        simp only [currentBindings, List.map_cons, List.lookup, List.find?, h1, h2]
        exact ih
  · intro c input s node hnode hkind hrender
    simp [specStep, hnode, hkind, hrender]
  · exact by decide
  · exact by decide

/-- Witness for C5: the unbound-token rule applied to the concrete
`CheckPlanDiscussed` template under an unrelated binding. -/
theorem c5_witness :
    renderTemplate [("other_name", "x")] checkPlanDiscussedText = none := by
  exact c5_template_rendering.1 [("other_name", "x")] checkPlanDiscussedText
    ⟨"current_plan", by decide, rfl⟩

end SpecModel
